import Mathlib

/-!
Shallow embedding of the autonomous risk-orchestration core of the
Autonomous-Control_Tower repository, together with theorems settling the
spec claims about it.

Conventions of the embedding:
* Python floats are modelled as exact rationals (`ℚ`); every numeric
  constant in the relevant code is an exact decimal, so no rounding
  behaviour is lost.
* Timestamps are rationals (seconds); durations in hours are rationals.
* Python `dict` parameter payloads are association lists
  (`List (String × PVal)`), looked up with the same defaults the code
  passes to `dict.get`.
* The database tables of risks and shipments are Lean lists; a commit of
  a new row is an append.  Row ids are modelled by an `id` field.
* Enum columns (stored as lowercase value strings in the code) are
  modelled by Lean inductive types; the code's string→enum normalisation
  layers are identity on every value the pipeline itself produces.
-/

namespace ControlTower

/-- `app.models.risk.RiskType` (values `port_congestion`, …, `other`). -/
inductive RiskType where
  | portCongestion
  | customsDelay
  | qualityHold
  | weatherImpact
  | equipmentFailure
  | laborStrike
  | securityIssue
  | routeBlockage
  | capacityShortage
  | other
deriving DecidableEq, Repr

/-- `app.models.risk.RiskSeverity`. -/
inductive RiskSeverity where
  | low
  | medium
  | high
  | critical
deriving DecidableEq, Repr

/-- `app.models.risk.RiskStatus`. -/
inductive RiskStatus where
  | detected
  | analyzing
  | mitigating
  | resolved
  | escalated
deriving DecidableEq, Repr

/-- A row of the `risks` table (`app.models.risk.Risk`), restricted to the
columns the orchestration core reads or writes.  `confidence` and
`expectedDelayHours` are nullable `Float` columns, hence `Option ℚ`;
`resolvedAt` is a nullable timestamp. -/
structure Risk where
  id : Nat
  shipmentId : Nat
  riskType : RiskType
  severity : RiskSeverity
  status : RiskStatus
  description : String
  confidence : Option ℚ
  expectedDelayHours : Option ℚ
  resolvedAt : Option ℚ
deriving DecidableEq, Repr

/-- The shipment fields consumed by the risk detectors and the rollup
(`app.models.shipment.Shipment` plus the `shipment_metadata` keys
`customs_status` / `quality_status`). -/
structure Shipment where
  id : Nat
  nextPort : Option String
  customsStatus : Option String
  qualityStatus : Option String
  /-- `estimated_arrival`, seconds since epoch (nullable). -/
  estimatedArrival : Option ℚ
deriving DecidableEq, Repr

/-- A value of a scenario `parameters` dict. -/
inductive PVal where
  | num (q : ℚ)
  | str (s : String)
  | strList (l : List String)
deriving DecidableEq, Repr

/-- A scenario `parameters` dict. -/
abbrev Params := List (String × PVal)

/-- `params.get(key, default)` for a numeric entry, as the scoring code
uses it: a missing key yields the default. -/
def getNum (ps : Params) (key : String) (dflt : ℚ) : ℚ :=
  match ps with
  | [] => dflt
  | (k, PVal.num q) :: rest => if k = key then q else getNum rest key dflt
  | _ :: rest => getNum rest key dflt

/-- `params.get(key, default)` for a string entry. -/
def getStr (ps : Params) (key : String) (dflt : String) : String :=
  match ps with
  | [] => dflt
  | (k, PVal.str s) :: rest => if k = key then s else getStr rest key dflt
  | _ :: rest => getStr rest key dflt

/-! ## Risk rollup (`RiskService._update_shipment_risk_flags`) -/

/-- Python's `max(r.confidence or 0.0 for r in risks)` over a non-empty
list; a `None` (or `0.0`) confidence contributes `0`. -/
def maxConfidence : List Risk → ℚ
  | [] => 0
  | r :: rs => rs.foldl (fun m x => max m (x.confidence.getD 0)) (r.confidence.getD 0)

/-- The shipment-level rollup fields written by
`RiskService._update_shipment_risk_flags`. -/
structure Rollup where
  riskScore : ℚ
  isAtRisk : Bool
  lastRiskCheck : ℚ
deriving DecidableEq, Repr

/-- `RiskService._update_shipment_risk_flags` (risk_service.py:492-508):
given all persisted risks of the shipment (the query filters on
`shipment_id` only, not on status) and the current time, recompute
`risk_score`, `is_at_risk` and `last_risk_check`. -/
def updateShipmentRiskFlags (risks : List Risk) (now : ℚ) : Rollup :=
  if risks.isEmpty then
    { riskScore := 0, isAtRisk := false, lastRiskCheck := now }
  else
    { riskScore := maxConfidence risks
      isAtRisk := risks.any fun r => decide (r.status = RiskStatus.detected)
      lastRiskCheck := now }

/-- An "active" risk in the spec's sense (glossary: status not RESOLVED
or ESCALATED). -/
def isActive (r : Risk) : Bool :=
  !(decide (r.status = RiskStatus.resolved) || decide (r.status = RiskStatus.escalated))

/-- Modelled from the spec's words (for comparison with the code's
rollup): `risk_score = max(confidence across all active risks)`, `0.0`
when there are none. -/
def specActiveRiskScore (risks : List Risk) : ℚ :=
  maxConfidence (risks.filter isActive)

/-! ## Risk status updates (`RiskService.update_risk_status`) -/

/-- The legal transitions of the spec's risk lifecycle state machine
(spec §3), modelled from the spec's words for comparison with the code. -/
def specLegalTransition : RiskStatus → RiskStatus → Bool
  | RiskStatus.detected, RiskStatus.analyzing => true
  | RiskStatus.analyzing, RiskStatus.mitigating => true
  | RiskStatus.mitigating, RiskStatus.resolved => true
  | RiskStatus.mitigating, RiskStatus.escalated => true
  | RiskStatus.analyzing, RiskStatus.escalated => true
  | _, _ => false

/-- `RiskService.update_risk_status` (risk_service.py:510-531) on a found
risk: the requested status is stored unconditionally (the enum
normalisation is identity on enum members), and `resolved_at` is stamped
when the new status is RESOLVED.  No transition validation occurs. -/
def updateRiskStatus (r : Risk) (s : RiskStatus) (now : ℚ) : Risk :=
  let r' := { r with status := s }
  if s = RiskStatus.resolved then { r' with resolvedAt := some now } else r'

/-! ## Risk detection (`RiskService.detect_risks` and helpers) -/

/-- `RiskService._get_congestion_level` (risk_service.py:478-486): the
stubbed per-port congestion table, default `0.3`. -/
def getCongestionLevel (portCode : String) : ℚ :=
  if portCode = "CNSHA" then 0.8
  else if portCode = "USLAX" then 0.7
  else if portCode = "SGSIN" then 0.4
  else if portCode = "NLRTM" then 0.6
  else 0.3

/-- `RiskService._detect_port_congestion` (risk_service.py:398-417),
parametrised by the congestion lookup (`self._get_congestion_level`,
a pluggable data source).  Candidate rows carry `id := 0`; ids are
assigned by the database on insert. -/
def detectPortCongestion (sh : Shipment) (lookup : String → ℚ) : List Risk :=
  match sh.nextPort with
  | none => []
  | some port =>
    let c := lookup port
    if c > 0.7 then
      [{ id := 0
         shipmentId := sh.id
         riskType := RiskType.portCongestion
         severity := if c > 0.8 then RiskSeverity.high else RiskSeverity.medium
         status := RiskStatus.detected
         description := "Port congestion detected at " ++ port
         confidence := some c
         expectedDelayHours := some (c * 48)
         resolvedAt := none }]
    else []

/-- `RiskService._detect_customs_delays` (risk_service.py:419-436):
fires when the metadata key `customs_status` is one of
`delayed`/`held`/`under_review`. -/
def detectCustomsDelays (sh : Shipment) : List Risk :=
  match sh.customsStatus with
  | none => []
  | some s =>
    if s = "delayed" || s = "held" || s = "under_review" then
      [{ id := 0
         shipmentId := sh.id
         riskType := RiskType.customsDelay
         severity := RiskSeverity.high
         status := RiskStatus.detected
         description := "Customs clearance " ++ s
         confidence := some 0.85
         expectedDelayHours := some 24
         resolvedAt := none }]
    else []

/-- `RiskService._detect_quality_holds` (risk_service.py:438-455). -/
def detectQualityHolds (sh : Shipment) : List Risk :=
  match sh.qualityStatus with
  | none => []
  | some s =>
    if s = "hold" || s = "inspection" then
      [{ id := 0
         shipmentId := sh.id
         riskType := RiskType.qualityHold
         severity := RiskSeverity.medium
         status := RiskStatus.detected
         description := "Quality inspection " ++ s
         confidence := some 0.9
         expectedDelayHours := some 12
         resolvedAt := none }]
    else []

/-- Python's `f"{x:.1f}"` rounds to one decimal place; the embedding
renders the rounded rational with `toString`.  Only determinism of the
description for a fixed context matters to the claims. -/
def fmtOneDecimal (q : ℚ) : String :=
  toString ((round (q * 10) : ℤ)) ++ "/10"

/-- `RiskService._detect_delays` (risk_service.py:457-476): fires when
`now` is past `estimated_arrival` by more than 4 hours. -/
def detectDelays (sh : Shipment) (now : ℚ) : List Risk :=
  match sh.estimatedArrival with
  | none => []
  | some eta =>
    if now > eta then
      let delayHours := (now - eta) / 3600
      if delayHours > 4 then
        [{ id := 0
           shipmentId := sh.id
           riskType := RiskType.other
           severity := if delayHours > 24 then RiskSeverity.high else RiskSeverity.medium
           status := RiskStatus.detected
           description := "Shipment delayed by " ++ fmtOneDecimal delayHours ++ " hours"
           confidence := some (min 0.9 (delayHours / 48))
           expectedDelayHours := some delayHours
           resolvedAt := none }]
      else []
    else []

/-- `RiskService.detect_risks` (risk_service.py:371-396): the union of
the four detector rules, in source order. -/
def detectRisks (sh : Shipment) (now : ℚ) : List Risk :=
  detectPortCongestion sh getCongestionLevel
    ++ detectCustomsDelays sh
    ++ detectQualityHolds sh
    ++ detectDelays sh now

/-! ## Batch assessment (`RiskService.assess_shipment`) -/

/-- The duplicate check of `assess_shipment` (risk_service.py:237-265):
an existing row counts as a duplicate of the candidate when it has the
same `shipment_id`, the same `description`, status `detected`, and the
same (normalised) `risk_type`. -/
def isDuplicate (db : List Risk) (sid : Nat) (cand : Risk) : Bool :=
  db.any fun ex =>
    decide (ex.shipmentId = sid) && decide (ex.description = cand.description)
      && decide (ex.status = RiskStatus.detected)
      && decide (ex.riskType = cand.riskType)

/-- The per-candidate loop of `assess_shipment` (risk_service.py:215-362):
each candidate is skipped if `isDuplicate` holds against the rows
committed so far, otherwise inserted (committed immediately, so later
candidates of the same run see it).  Returns the final table and the
list of newly persisted rows, with database-assigned ids. -/
def assessInsertLoop (sid : Nat) (db : List Risk) (cands : List Risk) :
    List Risk × List Risk :=
  match cands with
  | [] => (db, [])
  | c :: rest =>
    if isDuplicate db sid c then
      assessInsertLoop sid db rest
    else
      let c' := { c with id := db.length }
      let out := assessInsertLoop sid (db ++ [c']) rest
      (out.1, c' :: out.2)

/-- `RiskService.assess_shipment` (risk_service.py:210-369): detect, then
dedup-insert.  Returns the updated risk table and the newly persisted
rows. -/
def assessShipment (db : List Risk) (sh : Shipment) (now : ℚ) :
    List Risk × List Risk :=
  assessInsertLoop sh.id db (detectRisks sh now)

/-! ## Monitor-loop risk creation (`CentralOrchestrator._create_risk`) -/

/-- `CentralOrchestrator._create_risk` (orchestrator.py:202-280): builds
a `Risk` row with status DETECTED and commits it.  There is no duplicate
check on this path.  (`expected_delay_hours` is not set; extra context
goes into `risk_metadata`, which no claim reads.) -/
def createRisk (db : List Risk) (sid : Nat) (rt : RiskType) (sev : RiskSeverity)
    (descr : String) (conf : ℚ) : List Risk :=
  db ++ [{ id := db.length
           shipmentId := sid
           riskType := rt
           severity := sev
           status := RiskStatus.detected
           description := descr
           confidence := some conf
           expectedDelayHours := none
           resolvedAt := none }]

/-- `CentralOrchestrator._check_customs_status` (orchestrator.py:175-187):
the monitor-loop customs check, creating a risk via `_create_risk`. -/
def checkCustomsStatus (db : List Risk) (sid : Nat) (customsStatus : Option String) :
    List Risk :=
  match customsStatus with
  | none => db
  | some s =>
    if s = "held" || s = "delayed" || s = "under_review" then
      createRisk db sid RiskType.customsDelay RiskSeverity.high
        ("Customs clearance " ++ s) 0.85
    else db

/-- Modelled from the spec's words (§3 dedup invariant, for comparison
with the code): no two distinct active rows of the table share
`(shipment_id, risk_type, description)`. -/
def specDedupInvariant : List Risk → Bool
  | [] => true
  | r :: rs =>
    (!(isActive r) || !(rs.any fun x =>
        isActive x && decide (x.shipmentId = r.shipmentId)
          && decide (x.riskType = r.riskType)
          && decide (x.description = r.description)))
      && specDedupInvariant rs

/-! ## Mitigation simulation (`SimulationService`) -/

/-- A scenario template generated by
`SimulationService._generate_mitigation_scenarios`. -/
structure Scenario where
  name : String
  actionType : String
  parameters : Params
deriving DecidableEq, Repr

/-- One entry of the list returned by
`SimulationService.simulate_mitigations` (the dict built by
`_run_simulation`). -/
structure SimResult where
  scenarioName : String
  actionType : String
  parameters : Params
  timeSavingsHours : ℚ
  costImpact : ℚ
  riskReduction : ℚ
  confidence : ℚ
  feasibility : ℚ
  implementationTimeHours : ℚ
deriving DecidableEq, Repr

/-- `SimulationService._get_alternative_port` (simulation_service.py:189-197). -/
def getAlternativePort (portCode : Option String) : String :=
  match portCode with
  | some "CNSHA" => "CNNGB"
  | some "USLAX" => "USLGB"
  | some "NLRTM" => "BEANR"
  | some "SGSIN" => "MYPKG"
  | _ => "ALT001"

/-- `SimulationService._generate_mitigation_scenarios`
(simulation_service.py:84-164): the fixed template menu per risk type. -/
def generateMitigationScenarios (rt : RiskType) (nextPort : Option String) :
    List Scenario :=
  match rt with
  | RiskType.portCongestion =>
    [{ name := "Alternative Port", actionType := "reroute",
       parameters := [("alternative_port", PVal.str (getAlternativePort nextPort)),
                      ("estimated_time_savings", PVal.num 24),
                      ("cost_impact", PVal.num 5000)] },
     { name := "Schedule Adjustment", actionType := "delay",
       parameters := [("delay_hours", PVal.num 12),
                      ("estimated_time_savings", PVal.num 12),
                      ("cost_impact", PVal.num 1000),
                      ("reason", PVal.str "Avoid peak congestion")] }]
  | RiskType.customsDelay =>
    [{ name := "Expedited Clearance", actionType := "expedite_customs",
       parameters := [("service_level", PVal.str "premium"),
                      ("estimated_time_savings", PVal.num 20),
                      ("cost_impact", PVal.num 2500)] },
     { name := "Additional Documentation", actionType := "submit_documents",
       parameters := [("document_types",
                        PVal.strList ["certificate_of_origin", "commercial_invoice"]),
                      ("estimated_time_savings", PVal.num 12),
                      ("cost_impact", PVal.num 500)] }]
  | RiskType.qualityHold =>
    [{ name := "Remote Inspection", actionType := "remote_inspection",
       parameters := [("inspection_type", PVal.str "video"),
                      ("estimated_time_savings", PVal.num 18),
                      ("cost_impact", PVal.num 1500)] },
     { name := "Alternative Batch", actionType := "source_alternative",
       parameters := [("source_location", PVal.str "nearby_warehouse"),
                      ("estimated_time_savings", PVal.num 24),
                      ("cost_impact", PVal.num 3000)] }]
  | _ =>
    [{ name := "Expedite Leg", actionType := "expedite_leg",
       parameters := [("estimated_time_savings", PVal.num 8),
                      ("cost_impact", PVal.num 1200)] }]

/-- `SimulationService._run_simulation` (simulation_service.py:165-187):
the simple per-risk scorer.  `risk_reduction` is the constant `0.7`
(line 173), regardless of the scenario's action type. -/
def runSimulation (sc : Scenario) : SimResult :=
  let estSavings := getNum sc.parameters "estimated_time_savings" 0
  let costImpact := getNum sc.parameters "cost_impact" 0
  let timeScore := min 1 (estSavings / 48)
  let costScore := max 0 (1 - costImpact / 10000)
  let riskReduction : ℚ := 0.7
  let confidence := timeScore * 0.4 + costScore * 0.3 + riskReduction * 0.3
  { scenarioName := sc.name
    actionType := sc.actionType
    parameters := sc.parameters
    timeSavingsHours := estSavings
    costImpact := costImpact
    riskReduction := riskReduction
    confidence := confidence
    feasibility := 0.8
    implementationTimeHours := 2 }

/-- Row lookup `session.get(Risk, risk_id)`. -/
def findRisk (db : List Risk) (rid : Nat) : Option Risk :=
  db.find? fun r => decide (r.id = rid)

/-- Row lookup `session.get(Shipment, shipment_id)`. -/
def findShipment (db : List Shipment) (sid : Nat) : Option Shipment :=
  db.find? fun s => decide (s.id = sid)

/-- `SimulationService.simulate_mitigations` (simulation_service.py:67-82):
empty when the risk or the shipment does not exist; otherwise each
generated scenario is scored and appended in template order — there is
no sort. -/
def simulateMitigations (risks : List Risk) (shipments : List Shipment)
    (sid rid : Nat) : List SimResult :=
  match findRisk risks rid, findShipment shipments sid with
  | some r, some sh => (generateMitigationScenarios r.riskType sh.nextPort).map runSimulation
  | _, _ => []

/-! ## Orchestrator decision pipeline (`CentralOrchestrator._handle_new_risk`) -/

/-- `CentralOrchestrator._select_best_mitigation` (orchestrator.py:314-320):
`{}` on an empty list, otherwise Python's `max` by
`x.get("confidence", 0)` (the first element attaining the maximum). -/
def selectBestMitigation (sims : List SimResult) : Option SimResult :=
  match sims with
  | [] => none
  | s :: rest =>
    some (rest.foldl (fun best x => if x.confidence > best.confidence then x else best) s)

/-- `best_option.get("confidence", 0)`: `0` for the `{}` best option. -/
def bestConfidence (sims : List SimResult) : ℚ :=
  match selectBestMitigation sims with
  | none => 0
  | some s => s.confidence

/-- The outward effect of `_handle_new_risk` on the Action Executor. -/
inductive Decision where
  | execute (actionType : String) (parameters : Params)
  | escalate
deriving DecidableEq, Repr

/-- `CentralOrchestrator._handle_new_risk` (orchestrator.py:282-312):
execute the best option iff its confidence exceeds `0.7`, otherwise
`_escalate_to_human` — which (orchestrator.py:322-326) only logs; it is
a TODO stub.  Neither branch writes the risk's status, so the risk row
is returned unchanged. -/
def handleNewRisk (r : Risk) (sims : List SimResult) : Decision × Risk :=
  match selectBestMitigation sims with
  | some best =>
    if best.confidence > 0.7 then
      (Decision.execute best.actionType best.parameters, r)
    else
      (Decision.escalate, r)
  | none => (Decision.escalate, r)

/-! ## Action execution (`ActionService.execute_action`) -/

/-- The dict returned by `ActionService.execute_action`. -/
structure ActionResult where
  success : Bool
  error : Option String
deriving DecidableEq, Repr

/-- A Python runtime error surfacing inside `execute_action`'s `try`. -/
inductive PyError where
  | nameError (n : String)
  | attributeError (n : String)
deriving DecidableEq, Repr

/-- The dispatch of `ActionService.execute_action` (action_service.py:13-36).
Every known branch's handler opens `AsyncSessionLocal()`, a name the
module never imports, so it raises `NameError`; the unknown-type branch
calls `self._execute_generic_action`, a method defined nowhere in the
repository, so the attribute lookup raises `AttributeError`. -/
def dispatchAction (actionType : String) : Except PyError ActionResult :=
  if actionType = "reroute" then Except.error (PyError.nameError "AsyncSessionLocal")
  else if actionType = "mode_switch" then Except.error (PyError.nameError "AsyncSessionLocal")
  else if actionType = "expedite_customs" then Except.error (PyError.nameError "AsyncSessionLocal")
  else if actionType = "delay" then Except.error (PyError.nameError "AsyncSessionLocal")
  else Except.error (PyError.attributeError "_execute_generic_action")

/-- `ActionService.execute_action` (action_service.py:13-36): any
exception raised by the dispatch is caught and turned into
`{"success": False, "error": str(e), ...}`. -/
def executeAction (actionType : String) : ActionResult :=
  match dispatchAction actionType with
  | Except.ok r => r
  | Except.error (PyError.nameError n) =>
    { success := false, error := some ("name " ++ n ++ " is not defined") }
  | Except.error (PyError.attributeError n) =>
    { success := false, error := some ("ActionService object has no attribute " ++ n) }

/-! ## Digital-twin engine (`app.utils.simulation_engine.SimulationEngine`) -/

/-- A scenario of `SimulationEngine._generate_mitigation_scenarios`
(simulation_engine.py:58-169): the fields the scoring reads. -/
structure EngScenario where
  sid : String
  name : String
  stype : String
  parameters : Params
deriving DecidableEq, Repr

/-- The fields of an engine simulation result that the ranking reads. -/
structure EngResult where
  sid : String
  name : String
  stype : String
  overallScore : ℚ
deriving DecidableEq, Repr

/-- `SimulationEngine._generate_mitigation_scenarios`: three templates
for `port_congestion`, two for `customs_delay`, two for `quality_hold`,
none otherwise. -/
def engGenerateScenarios (riskType : String) : List EngScenario :=
  if riskType = "port_congestion" then
    [{ sid := "port_alt_1", name := "Alternative Port Routing", stype := "reroute",
       parameters := [("estimated_implementation_time", PVal.num 4),
                      ("complexity", PVal.str "medium")] },
     { sid := "schedule_adjust_1", name := "Schedule Optimization", stype := "delay",
       parameters := [("delay_hours", PVal.num 12),
                      ("estimated_implementation_time", PVal.num 2)] },
     { sid := "mode_switch_1", name := "Inter-modal Transfer", stype := "mode_switch",
       parameters := [("new_mode", PVal.str "rail"),
                      ("estimated_implementation_time", PVal.num 8)] }]
  else if riskType = "customs_delay" then
    [{ sid := "expedite_1", name := "Expedited Clearance Service", stype := "expedite",
       parameters := [("service_level", PVal.str "premium"),
                      ("estimated_implementation_time", PVal.num 1)] },
     { sid := "documents_1", name := "Documentation Enhancement", stype := "documentation",
       parameters := [("estimated_implementation_time", PVal.num 6)] }]
  else if riskType = "quality_hold" then
    [{ sid := "remote_inspect_1", name := "Remote Video Inspection",
       stype := "remote_inspection",
       parameters := [("inspection_type", PVal.str "video"),
                      ("estimated_implementation_time", PVal.num 2)] },
     { sid := "alternative_source_1", name := "Alternative Source Activation",
       stype := "alternative_source",
       parameters := [("estimated_implementation_time", PVal.num 12)] }]
  else []

/-- `SimulationEngine._calculate_cost_impact` (simulation_engine.py:209-250):
the `additional_cost` component, by scenario type. -/
def engAdditionalCost (sc : EngScenario) : ℚ :=
  if sc.stype = "reroute" then 10000 * 0.3
  else if sc.stype = "delay" then (getNum sc.parameters "delay_hours" 12) / 24 * 500
  else if sc.stype = "expedite" then 2500
  else 10000 * 0.15

/-- `SimulationEngine._calculate_time_impact` (simulation_engine.py:252-283):
the `net_time_impact_hours` component.  `currentDelay` is
`risk_data.get("expected_delay_hours", 0)`. -/
def engNetTimeImpact (sc : EngScenario) (currentDelay : ℚ) : ℚ :=
  if sc.stype = "reroute" then
    min 48 (currentDelay * 0.7) - getNum sc.parameters "estimated_implementation_time" 4
  else if sc.stype = "delay" then
    -(getNum sc.parameters "delay_hours" 12) - 2
  else if sc.stype = "expedite" then 20 - 1
  else 12 - 4

/-- `SimulationEngine._calculate_risk_reduction` (simulation_engine.py:285-310):
the per-action-type reduction constant — this table lives in the
digital-twin engine, not in the per-risk scorer. -/
def engRiskReduction (sc : EngScenario) : ℚ :=
  if sc.stype = "reroute" then 0.7
  else if sc.stype = "expedite" then 0.6
  else if sc.stype = "remote_inspection" then 0.8
  else 0.5

/-- `SimulationEngine._assess_feasibility` (simulation_engine.py:312-348). -/
def engFeasibility (sc : EngScenario) : ℚ :=
  let implTime := getNum sc.parameters "estimated_implementation_time" 4
  let implScore := max 0 (1 - implTime / 24)
  let regulatory : ℚ := if sc.stype = "mode_switch" then 0.7 else 0.9
  let complexityScore : ℚ :=
    match getStr sc.parameters "complexity" "medium" with
    | "low" => 0.9
    | "medium" => 0.7
    | "high" => 0.4
    | _ => 0.7
  let total := implScore * 0.3 + 0.8 * 0.25 + regulatory * 0.2
      + 0.7 * 0.15 + complexityScore * 0.1
  min 1 (max 0 total)

/-- `SimulationEngine._calculate_overall_score` (simulation_engine.py:350-376). -/
def engOverallScore (additionalCost netTime riskReduction feasibility : ℚ) : ℚ :=
  let costScore := max 0 (1 - additionalCost / 5000)
  let timeScore := max 0 (1 + netTime / 48)
  min 1 (max 0 (costScore * 0.25 + timeScore * 0.35 + riskReduction * 0.30
    + feasibility * 0.10))

/-- `SimulationEngine._run_simulation` (simulation_engine.py:171-207),
reduced to the fields the ranking reads. -/
def engRunSimulation (currentDelay : ℚ) (sc : EngScenario) : EngResult :=
  { sid := sc.sid
    name := sc.name
    stype := sc.stype
    overallScore :=
      engOverallScore (engAdditionalCost sc) (engNetTimeImpact sc currentDelay)
        (engRiskReduction sc) (engFeasibility sc) }

/-- `SimulationEngine.simulate_mitigation_options`
(simulation_engine.py:15-56): score every generated scenario, then
`sort(key=lambda x: x.get("overall_score", 0), reverse=True)` — a stable
descending sort by overall score, modelled by a stable merge sort with
the order "left element's score is at least the right one's". -/
def simulateMitigationOptions (riskType : String) (currentDelay : ℚ) :
    List EngResult :=
  ((engGenerateScenarios riskType).map (engRunSimulation currentDelay)).mergeSort
    (fun a b => decide (b.overallScore ≤ a.overallScore))

/-- Descending-by-confidence check for the per-risk service results
(the order the claim asserts for `simulate_mitigations`). -/
def sortedDescByConfidence : List SimResult → Bool
  | [] => true
  | [_] => true
  | a :: b :: rest =>
    decide (b.confidence ≤ a.confidence) && sortedDescByConfidence (b :: rest)

/-! ## Spec-side definitions and concrete fixtures -/

/-- Modelled from the spec's words (§4.3, for comparison with the
per-risk scorer): "`risk_reduction` = fixed per-action-type constant
(reroute 0.7, expedite 0.6, remote_inspection 0.8, default 0.5)". -/
def claimRiskReduction (actionType : String) : ℚ :=
  if actionType = "reroute" then 0.7
  else if actionType = "expedite" then 0.6
  else if actionType = "remote_inspection" then 0.8
  else 0.5

/-- A shipment in transit towards Shanghai (congestion level `0.8` in
the stubbed table). -/
def exShipment : Shipment :=
  { id := 1
    nextPort := some "CNSHA"
    customsStatus := none
    qualityStatus := none
    estimatedArrival := none }

/-- The persisted port-congestion risk the detector produces for
`exShipment` (row id 1). -/
def exRiskPort : Risk :=
  { id := 1
    shipmentId := 1
    riskType := RiskType.portCongestion
    severity := RiskSeverity.medium
    status := RiskStatus.detected
    description := "Port congestion detected at CNSHA"
    confidence := some 0.8
    expectedDelayHours := some (192/5)
    resolvedAt := none }

/-- The mitigation-simulation output for `exRiskPort` / `exShipment`. -/
def exSims : List SimResult :=
  simulateMitigations [exRiskPort] [exShipment] 1 1

/-- The scored "Schedule Adjustment" scenario, the best option among
`exSims` (confidence `0.58`). -/
def exBestOption : SimResult :=
  { scenarioName := "Schedule Adjustment"
    actionType := "delay"
    parameters := [("delay_hours", PVal.num 12),
                   ("estimated_time_savings", PVal.num 12),
                   ("cost_impact", PVal.num 1000),
                   ("reason", PVal.str "Avoid peak congestion")]
    timeSavingsHours := 12
    costImpact := 1000
    riskReduction := 7/10
    confidence := 29/50
    feasibility := 4/5
    implementationTimeHours := 2 }

/-- A risk of `exShipment` that has already been resolved, with a high
recorded confidence. -/
def exResolvedRisk : Risk :=
  { id := 2
    shipmentId := 1
    riskType := RiskType.customsDelay
    severity := RiskSeverity.high
    status := RiskStatus.resolved
    description := "Customs clearance held"
    confidence := some 0.9
    expectedDelayHours := some 24
    resolvedAt := some 3 }

/-- The "Remote Inspection" template of the quality-hold menu. -/
def exRemoteScenario : Scenario :=
  { name := "Remote Inspection"
    actionType := "remote_inspection"
    parameters := [("inspection_type", PVal.str "video"),
                   ("estimated_time_savings", PVal.num 18),
                   ("cost_impact", PVal.num 1500)] }

/-- A cheap scenario: cost 1000, estimated savings 12 hours. -/
def exCheapScenario : Scenario :=
  { name := "Cheap Option"
    actionType := "delay"
    parameters := [("estimated_time_savings", PVal.num 12),
                   ("cost_impact", PVal.num 1000)] }

/-- A costly scenario: cost 5000, the same estimated savings. -/
def exCostlyScenario : Scenario :=
  { name := "Costly Option"
    actionType := "reroute"
    parameters := [("estimated_time_savings", PVal.num 12),
                   ("cost_impact", PVal.num 5000)] }

/-! ## Theorems -/

/-- C3 (counterexample): the rollup recompute at a shipment whose only
risk is RESOLVED with confidence 0.9 sets `risk_score = 0.9`, not the
maximum over active risks only (which is `0.0` here): the query feeding
`_update_shipment_risk_flags` does not filter on status. -/
theorem rollup_active_only_counterexample :
    (updateShipmentRiskFlags [exResolvedRisk] 5).riskScore = 9/10 ∧
    specActiveRiskScore [exResolvedRisk] = 0 ∧
    (updateShipmentRiskFlags [exResolvedRisk] 5).riskScore ≠
      specActiveRiskScore [exResolvedRisk] := by
  refine ⟨?_, ?_, ?_⟩ <;>
    simp [updateShipmentRiskFlags, specActiveRiskScore, maxConfidence, isActive,
      exResolvedRisk] <;> norm_num

/-- C3 (amended): after a rollup recompute, `risk_score` is the maximum
confidence over ALL of the shipment's risks, active or not (`0.0` only
when the shipment has no risk rows at all); `is_at_risk` holds iff some
risk has status DETECTED (so it is `false` once every risk is
RESOLVED/ESCALATED); `last_risk_check` is set to the current time. -/
theorem rollup_recompute (risks : List Risk) (now : ℚ) :
    (updateShipmentRiskFlags risks now).lastRiskCheck = now ∧
    ((updateShipmentRiskFlags risks now).isAtRisk = true ↔
      ∃ r ∈ risks, r.status = RiskStatus.detected) ∧
    (risks = [] → (updateShipmentRiskFlags risks now).riskScore = 0) ∧
    (risks ≠ [] → (updateShipmentRiskFlags risks now).riskScore = maxConfidence risks) ∧
    ((∀ r ∈ risks, r.status = RiskStatus.resolved ∨ r.status = RiskStatus.escalated) →
      (updateShipmentRiskFlags risks now).isAtRisk = false) := by
  unfold updateShipmentRiskFlags
  split_ifs with h
  · have hnil : risks = [] := by simpa [List.isEmpty_iff] using h
    subst hnil
    simp
  · have hne : risks ≠ [] := by simpa [List.isEmpty_iff] using h
    refine ⟨rfl, ?_, fun h0 => absurd h0 hne, fun _ => rfl, ?_⟩
    · simp [List.any_eq_true]
    · intro hall
      rw [List.any_eq_false]
      intro r hr
      rcases hall r hr with h1 | h1 <;> simp [h1]

/-- C3 (witness for the amended theorem): with the resolved risk as the
only row, the recompute clears `is_at_risk`. -/
theorem rollup_recompute_witness :
    (updateShipmentRiskFlags [exResolvedRisk] 5).isAtRisk = false :=
  (rollup_recompute [exResolvedRisk] 5).2.2.2.2 (by
    intro r hr
    simp only [List.mem_singleton] at hr
    subst hr
    exact Or.inl rfl)

/-- C4 (counterexample): `update_risk_status` applies the illegal
transition RESOLVED → ANALYZING: it is not rejected, and the stored
status changes to the requested one. -/
theorem transition_validation_counterexample :
    specLegalTransition RiskStatus.resolved RiskStatus.analyzing = false ∧
    (updateRiskStatus exResolvedRisk RiskStatus.analyzing 7).status =
      RiskStatus.analyzing ∧
    (updateRiskStatus exResolvedRisk RiskStatus.analyzing 7).status ≠
      exResolvedRisk.status := by
  refine ⟨rfl, ?_, ?_⟩ <;> simp [updateRiskStatus, exResolvedRisk]

/-- C4 (amended): `update_risk_status` performs no state-machine
validation: every requested status change (legal or not per §3) is
applied unconditionally, storing exactly the requested status, and
`resolved_at` is stamped iff the new status is RESOLVED. -/
theorem update_risk_status_unvalidated (r : Risk) (s : RiskStatus) (now : ℚ) :
    (updateRiskStatus r s now).status = s ∧
    (updateRiskStatus r s now).resolvedAt =
      (if s = RiskStatus.resolved then some now else r.resolvedAt) := by
  unfold updateRiskStatus
  split_ifs with h <;> simp

/-- C5: `execute_action` on an action type outside
{reroute, mode_switch, expedite_customs, delay} returns
`success = False`, not a generic no-op success: the dispatch calls
`self._execute_generic_action`, which is defined nowhere, and the
resulting `AttributeError` is caught and converted into a failure
dict. -/
theorem unknown_action_returns_failure :
    (executeAction "submit_documents").success = false ∧
    (executeAction "source_alternative").success = false ∧
    (executeAction "expedite_leg").success = false := by
  refine ⟨?_, ?_, ?_⟩ <;> simp [executeAction, dispatchAction]

/-- C1 (counterexample): for the CNSHA port-congestion risk the best
scenario scores `0.58 ≤ 0.7`, so no action is executed — but the risk's
stored status stays DETECTED: `_escalate_to_human` is a logging stub and
never writes ESCALATED. -/
theorem escalation_status_counterexample :
    bestConfidence exSims ≤ 0.7 ∧
    handleNewRisk exRiskPort exSims = (Decision.escalate, exRiskPort) ∧
    (handleNewRisk exRiskPort exSims).2.status ≠ RiskStatus.escalated := by
  refine ⟨?_, ?_, ?_⟩ <;>
    simp [bestConfidence, handleNewRisk, exSims, simulateMitigations, findRisk,
      findShipment, exRiskPort, exShipment, generateMitigationScenarios,
      getAlternativePort, runSimulation, getNum, selectBestMitigation,
      min_def, max_def] <;>
    split_ifs <;> norm_num at *

/-- C1 (amended): the decision gate holds — the Action Executor is
invoked with the best scenario's action type and parameters iff the best
confidence exceeds `0.7`, and otherwise the pipeline escalates — but in
both branches the risk row is returned unchanged: the pipeline never
writes MITIGATING, and on escalation the status does not become
ESCALATED (a DETECTED risk stays DETECTED). -/
theorem decision_pipeline (r : Risk) (sims : List SimResult) :
    (handleNewRisk r sims).2 = r ∧
    ∀ best, selectBestMitigation sims = some best →
      (best.confidence > 0.7 →
        (handleNewRisk r sims).1 = Decision.execute best.actionType best.parameters) ∧
      (best.confidence ≤ 0.7 → (handleNewRisk r sims).1 = Decision.escalate) := by
  constructor
  · unfold handleNewRisk
    cases h : selectBestMitigation sims
    · rfl
    · dsimp only
      split_ifs <;> rfl
  · intro best hb
    constructor
    · intro hgt
      simp [handleNewRisk, hb, hgt]
    · intro hle
      simp [handleNewRisk, hb, not_lt.mpr hle]

/-- C1 (witness for the amended theorem): at the concrete CNSHA inputs
the best option is the scored Schedule Adjustment (confidence `0.58`),
and the pipeline escalates. -/
theorem decision_pipeline_witness :
    (handleNewRisk exRiskPort exSims).1 = Decision.escalate := by
  have hsel : selectBestMitigation exSims = some exBestOption := by
    simp [selectBestMitigation, exSims, simulateMitigations, findRisk, findShipment,
      exRiskPort, exShipment, generateMitigationScenarios, getAlternativePort,
      runSimulation, getNum, exBestOption, min_def, max_def] <;>
      split_ifs <;> norm_num at *
  exact ((decision_pipeline exRiskPort exSims).2 exBestOption hsel).2
    (by norm_num [exBestOption])

/-- C6 (counterexample): the simple per-risk scorer gives the Remote
Inspection scenario `risk_reduction = 0.7`, not the per-action-type
constant `0.8` the claim states for `remote_inspection`, and its score
differs from the claimed formula accordingly (`0.615` vs `0.645`). -/
theorem risk_reduction_constant_counterexample :
    (runSimulation exRemoteScenario).riskReduction = 7/10 ∧
    claimRiskReduction "remote_inspection" = 4/5 ∧
    (runSimulation exRemoteScenario).confidence ≠
      min 1 ((18:ℚ)/48) * 0.4 + max 0 (1 - (1500:ℚ)/10000) * 0.3 +
        claimRiskReduction "remote_inspection" * 0.3 := by
  refine ⟨?_, ?_, ?_⟩ <;>
    simp [runSimulation, exRemoteScenario, getNum, claimRiskReduction,
      min_def, max_def] <;>
    norm_num

/-- C6 (amended): the simple per-risk scorer uses the weights
`0.4/0.3/0.3` with `time_score = min(1, savings/48)` and
`cost_score = max(0, 1 − cost/10000)` as claimed, but its
`risk_reduction` is the constant `0.7` for every action type; the
per-action-type table (reroute 0.7, expedite 0.6, remote_inspection 0.8,
default 0.5) lives only in the digital-twin engine's
`_calculate_risk_reduction`. -/
theorem simple_scorer_formula (sc : Scenario) :
    (runSimulation sc).riskReduction = 0.7 ∧
    (runSimulation sc).confidence =
      min 1 (getNum sc.parameters "estimated_time_savings" 0 / 48) * 0.4 +
        max 0 (1 - getNum sc.parameters "cost_impact" 0 / 10000) * 0.3 +
        0.7 * 0.3 := by
  exact ⟨rfl, rfl⟩

/-- C9: monotonicity of the per-risk score — strictly lower cost and
equal-or-greater estimated time savings never score lower. -/
theorem scoring_monotonicity (sc1 sc2 : Scenario)
    (hcost : getNum sc1.parameters "cost_impact" 0 <
      getNum sc2.parameters "cost_impact" 0)
    (htime : getNum sc2.parameters "estimated_time_savings" 0 ≤
      getNum sc1.parameters "estimated_time_savings" 0) :
    (runSimulation sc2).confidence ≤ (runSimulation sc1).confidence := by
  unfold runSimulation
  dsimp only
  have h1 : min 1 (getNum sc2.parameters "estimated_time_savings" 0 / 48) ≤
      min 1 (getNum sc1.parameters "estimated_time_savings" 0 / 48) :=
    min_le_min le_rfl ((div_le_div_right (by norm_num)).mpr htime)
  have h2 : max 0 (1 - getNum sc2.parameters "cost_impact" 0 / 10000) ≤
      max 0 (1 - getNum sc1.parameters "cost_impact" 0 / 10000) := by
    refine max_le_max le_rfl ?_
    have := (div_le_div_right (show (0:ℚ) < 10000 by norm_num)).mpr hcost.le
    linarith
  linarith

/-- C9 (witness): the cheap scenario (cost 1000, savings 12) scores at
least as high as the costly one (cost 5000, savings 12). -/
theorem scoring_monotonicity_witness :
    getNum exCheapScenario.parameters "cost_impact" 0 <
      getNum exCostlyScenario.parameters "cost_impact" 0 ∧
    (runSimulation exCostlyScenario).confidence ≤
      (runSimulation exCheapScenario).confidence :=
  ⟨by simp [getNum, exCheapScenario, exCostlyScenario] <;> norm_num,
   scoring_monotonicity exCheapScenario exCostlyScenario
     (by simp [getNum, exCheapScenario, exCostlyScenario] <;> norm_num)
     (by simp [getNum, exCheapScenario, exCostlyScenario] <;> norm_num)⟩

/-- C10: when the mitigation simulation returns no scenarios (risk or
shipment not found), the best-option selection falls back to confidence
`0`, which fails the `> 0.7` gate, so the Action Executor is never
invoked: the pipeline escalates. -/
theorem empty_simulation_never_executes (risks : List Risk)
    (shipments : List Shipment) (sid rid : Nat) (r : Risk)
    (h : findRisk risks rid = none ∨ findShipment shipments sid = none) :
    simulateMitigations risks shipments sid rid = [] ∧
    bestConfidence (simulateMitigations risks shipments sid rid) = 0 ∧
    handleNewRisk r (simulateMitigations risks shipments sid rid) =
      (Decision.escalate, r) := by
  have he : simulateMitigations risks shipments sid rid = [] := by
    unfold simulateMitigations
    rcases h with h | h
    · rw [h]
      try (cases findShipment shipments sid <;> rfl)
    · rw [h]
      try (cases findRisk risks rid <;> rfl)
  refine ⟨he, ?_, ?_⟩ <;> rw [he] <;> rfl

/-- C10 (witness): with empty tables the simulation is empty and the
pipeline escalates without executing. -/
theorem empty_simulation_witness :
    simulateMitigations [] [] 1 1 = [] ∧
    handleNewRisk exRiskPort (simulateMitigations [] [] 1 1) =
      (Decision.escalate, exRiskPort) :=
  ⟨(empty_simulation_never_executes [] [] 1 1 exRiskPort (Or.inl rfl)).1,
   (empty_simulation_never_executes [] [] 1 1 exRiskPort (Or.inl rfl)).2.2⟩

/-! ### Helper lemmas for the assessment dedup loop -/

theorem assessInsertLoop_fst (sid : Nat) (cands : List Risk) :
    ∀ db, (assessInsertLoop sid db cands).1 = db ++ (assessInsertLoop sid db cands).2 := by
  induction cands with
  | nil => intro db; simp [assessInsertLoop]
  | cons c rest ih =>
    intro db
    simp only [assessInsertLoop]
    split_ifs with h
    · exact ih db
    · dsimp only
      rw [ih]
      simp

theorem isDuplicate_append (db t : List Risk) (sid : Nat) (c : Risk)
    (h : isDuplicate db sid c = true) : isDuplicate (db ++ t) sid c = true := by
  simp only [isDuplicate, List.any_append, Bool.or_eq_true]
  exact Or.inl h

theorem isDuplicate_of_mem (db : List Risk) (sid : Nat) (c c₀ : Risk)
    (hm : c₀ ∈ db) (hsid : c₀.shipmentId = sid)
    (hst : c₀.status = RiskStatus.detected)
    (hd : c₀.description = c.description) (ht : c₀.riskType = c.riskType) :
    isDuplicate db sid c = true := by
  simp only [isDuplicate, List.any_eq_true]
  exact ⟨c₀, hm, by simp [hsid, hst, hd, ht]⟩

theorem assessInsertLoop_covers (sid : Nat) :
    ∀ (cands db : List Risk),
      (∀ c ∈ cands, c.status = RiskStatus.detected ∧ c.shipmentId = sid) →
      ∀ c ∈ cands, isDuplicate (assessInsertLoop sid db cands).1 sid c = true := by
  intro cands
  induction cands with
  | nil => intro db _ c hc; simp at hc
  | cons a rest ih =>
    intro db hf c hc
    simp only [assessInsertLoop]
    split_ifs with h
    · rcases List.mem_cons.mp hc with rfl | hr
      · rw [assessInsertLoop_fst]
        exact isDuplicate_append _ _ _ _ h
      · exact ih db (fun x hx => hf x (List.mem_cons_of_mem a hx)) c hr
    · dsimp only
      rcases List.mem_cons.mp hc with rfl | hr
      · rw [assessInsertLoop_fst]
        apply isDuplicate_append
        refine isDuplicate_of_mem _ sid c { c with id := db.length } ?_ ?_ ?_ rfl rfl
        · exact List.mem_append_right db (List.mem_singleton.mpr rfl)
        · exact (hf c (List.mem_cons_self c rest)).2
        · exact (hf c (List.mem_cons_self c rest)).1
      · exact ih (db ++ [{ a with id := db.length }])
          (fun x hx => hf x (List.mem_cons_of_mem a hx)) c hr

theorem assessInsertLoop_all_dup (sid : Nat) :
    ∀ (cands db : List Risk), (∀ c ∈ cands, isDuplicate db sid c = true) →
      assessInsertLoop sid db cands = (db, []) := by
  intro cands
  induction cands with
  | nil => intro db _; rfl
  | cons a rest ih =>
    intro db h
    simp only [assessInsertLoop]
    rw [if_pos (h a (List.mem_cons_self a rest))]
    exact ih db (fun c hc => h c (List.mem_cons_of_mem a hc))

theorem mem_detectPortCongestion (sh : Shipment) (lookup : String → ℚ) (c : Risk)
    (hc : c ∈ detectPortCongestion sh lookup) :
    c.status = RiskStatus.detected ∧ c.shipmentId = sh.id := by
  unfold detectPortCongestion at hc
  revert hc
  cases sh.nextPort with
  | none => intro hc; simp at hc
  | some p =>
    intro hc
    dsimp only at hc
    split_ifs at hc <;>
      first
        | (rw [List.mem_singleton] at hc; subst hc; exact ⟨rfl, rfl⟩)
        | simp at hc

theorem mem_detectCustomsDelays (sh : Shipment) (c : Risk)
    (hc : c ∈ detectCustomsDelays sh) :
    c.status = RiskStatus.detected ∧ c.shipmentId = sh.id := by
  unfold detectCustomsDelays at hc
  revert hc
  cases sh.customsStatus with
  | none => intro hc; simp at hc
  | some s =>
    intro hc
    dsimp only at hc
    split_ifs at hc <;>
      first
        | (rw [List.mem_singleton] at hc; subst hc; exact ⟨rfl, rfl⟩)
        | simp at hc

theorem mem_detectQualityHolds (sh : Shipment) (c : Risk)
    (hc : c ∈ detectQualityHolds sh) :
    c.status = RiskStatus.detected ∧ c.shipmentId = sh.id := by
  unfold detectQualityHolds at hc
  revert hc
  cases sh.qualityStatus with
  | none => intro hc; simp at hc
  | some s =>
    intro hc
    dsimp only at hc
    split_ifs at hc <;>
      first
        | (rw [List.mem_singleton] at hc; subst hc; exact ⟨rfl, rfl⟩)
        | simp at hc

theorem mem_detectDelays (sh : Shipment) (now : ℚ) (c : Risk)
    (hc : c ∈ detectDelays sh now) :
    c.status = RiskStatus.detected ∧ c.shipmentId = sh.id := by
  unfold detectDelays at hc
  revert hc
  cases sh.estimatedArrival with
  | none => intro hc; simp at hc
  | some eta =>
    intro hc
    dsimp only at hc
    split_ifs at hc <;>
      first
        | (rw [List.mem_singleton] at hc; subst hc; exact ⟨rfl, rfl⟩)
        | simp at hc

theorem detectRisks_fields (sh : Shipment) (now : ℚ) :
    ∀ c ∈ detectRisks sh now, c.status = RiskStatus.detected ∧ c.shipmentId = sh.id := by
  intro c hc
  simp only [detectRisks, List.mem_append] at hc
  rcases hc with ((h | h) | h) | h
  exacts [mem_detectPortCongestion sh getCongestionLevel c h,
    mem_detectCustomsDelays sh c h, mem_detectQualityHolds sh c h,
    mem_detectDelays sh now c h]

/-- C2 (counterexample): the monitor-loop path performs no dedup — two
ticks of `_check_customs_status` with unchanged context (`held`) insert
two active DETECTED risks with the same `(type, description)` pair,
violating the dedup invariant. -/
theorem monitor_dedup_counterexample :
    (checkCustomsStatus (checkCustomsStatus [] 1 (some "held")) 1 (some "held")).length = 2 ∧
    specDedupInvariant
      (checkCustomsStatus (checkCustomsStatus [] 1 (some "held")) 1 (some "held")) = false := by
  refine ⟨?_, ?_⟩ <;>
    simp [checkCustomsStatus, createRisk, specDedupInvariant, isActive]

/-- C2 (amended): the dedup holds on the batch path — re-running
`assess_shipment` on an unchanged shipment context persists zero new
rows, because every candidate is matched by an existing DETECTED row of
the first run — but the monitor-loop path `_create_risk` performs no
duplicate check at all and can insert duplicate active risks. -/
theorem assess_rerun_idempotent (db : List Risk) (sh : Shipment) (now : ℚ) :
    (assessShipment (assessShipment db sh now).1 sh now).2 = [] := by
  unfold assessShipment
  have hf := detectRisks_fields sh now
  have hcov := assessInsertLoop_covers sh.id (detectRisks sh now) db hf
  rw [assessInsertLoop_all_dup sh.id (detectRisks sh now) _ hcov]

/-- C7 (counterexample): the per-risk `simulate_mitigations` output for
the port-congestion risk is in template order with scores
`[0.56, 0.58]` — not sorted descending by overall score, and no
tie-break logic exists on this path. -/
theorem service_results_unsorted_counterexample :
    sortedDescByConfidence exSims = false := by
  simp [sortedDescByConfidence, exSims, simulateMitigations, findRisk, findShipment,
    exRiskPort, exShipment, generateMitigationScenarios, getAlternativePort,
    runSimulation, getNum, min_def, max_def] <;>
    split_ifs <;> norm_num at *

/-- C7 (amended): descending order by `overall_score` holds only for
the digital-twin engine's `simulate_mitigation_options` (a stable
Python sort, so equal scores keep template order; there is no
`cost_impact` tie-break); the per-risk `simulate_mitigations` returns
scenarios unsorted, in template order. -/
theorem engine_results_sorted (riskType : String) (currentDelay : ℚ) :
    List.Pairwise (fun a b => b.overallScore ≤ a.overallScore)
      (simulateMitigationOptions riskType currentDelay) := by
  unfold simulateMitigationOptions
  have htrans : ∀ a b c : EngResult,
      decide (b.overallScore ≤ a.overallScore) = true →
      decide (c.overallScore ≤ b.overallScore) = true →
      decide (c.overallScore ≤ a.overallScore) = true := by
    intro a b c hab hbc
    simp only [decide_eq_true_eq] at *
    exact le_trans hbc hab
  have htotal : ∀ a b : EngResult,
      (decide (b.overallScore ≤ a.overallScore) ||
        decide (a.overallScore ≤ b.overallScore)) = true := by
    intro a b
    simp only [Bool.or_eq_true, decide_eq_true_eq]
    exact le_total _ _
  have hs := List.sorted_mergeSort htrans htotal
    ((engGenerateScenarios riskType).map (engRunSimulation currentDelay))
  exact hs.imp fun h => of_decide_eq_true h

/-- C8: the port-congestion detector — with congestion level `c` looked
up for the shipment's next port, a candidate is emitted iff `c > 0.7`,
with severity HIGH when `c > 0.8` else MEDIUM, confidence `c` and
`expected_delay_hours = c * 48`; no candidate when `next_port` is
unset. -/
theorem port_congestion_detector (sh : Shipment) (lookup : String → ℚ) :
    (sh.nextPort = none → detectPortCongestion sh lookup = []) ∧
    ∀ p, sh.nextPort = some p →
      (lookup p ≤ 0.7 → detectPortCongestion sh lookup = []) ∧
      (lookup p > 0.7 → detectPortCongestion sh lookup =
        [{ id := 0
           shipmentId := sh.id
           riskType := RiskType.portCongestion
           severity := if lookup p > 0.8 then RiskSeverity.high else RiskSeverity.medium
           status := RiskStatus.detected
           description := "Port congestion detected at " ++ p
           confidence := some (lookup p)
           expectedDelayHours := some (lookup p * 48)
           resolvedAt := none }]) := by
  constructor
  · intro h
    unfold detectPortCongestion
    rw [h]
  · intro p hp
    constructor
    · intro hle
      unfold detectPortCongestion
      rw [hp]
      dsimp only
      rw [if_neg (not_lt.mpr hle)]
    · intro hgt
      unfold detectPortCongestion
      rw [hp]
      dsimp only
      rw [if_pos hgt]

/-- C8 (witness): the Shanghai-bound shipment with stubbed congestion
`0.8` yields exactly one MEDIUM candidate with confidence `0.8` and
expected delay `38.4` hours. -/
theorem port_congestion_detector_witness :
    detectPortCongestion exShipment getCongestionLevel =
      [{ id := 0
         shipmentId := 1
         riskType := RiskType.portCongestion
         severity := RiskSeverity.medium
         status := RiskStatus.detected
         description := "Port congestion detected at CNSHA"
         confidence := some (4/5)
         expectedDelayHours := some (192/5)
         resolvedAt := none }] := by
  have h := ((port_congestion_detector exShipment getCongestionLevel).2 "CNSHA" rfl).2
    (by simp [getCongestionLevel] <;> norm_num)
  rw [h]
  simp [getCongestionLevel, exShipment] <;> norm_num

end ControlTower
